import Mathlib

/-!
Verification of the deployment orchestrator of `flex-plugin-builder`
(`packages/flex-plugin-scripts/src/scripts/deploy.ts`) and of the
`DeploymentClient` serverless client, via a shallow embedding in Lean 4.

Remote effects (network calls, interactive prompts, filesystem writes) are
made explicit: every stage of the orchestrator is a pure function from its
inputs (collected in `DeployEnv`) to an ordered trace of remote `Action`s
together with an `Except`-style result, mirroring the sequential control
flow of the TypeScript source.
-/

namespace FlexPlugin

/-- A serverless Version record (`clients/serverless-types`): a served path
plus a remote sid. -/
structure Version where
  path : String
  sid : String
deriving DecidableEq, Repr

/-- A build dependency record carried verbatim through build composition. -/
structure Dependency where
  name : String
  version : String
deriving DecidableEq, Repr

/-- A serverless Build: ordered asset-version and function-version records
plus a dependency list. -/
structure Build where
  asset_versions : List Version
  function_versions : List Version
  dependencies : List Dependency
deriving DecidableEq, Repr

/-- A serverless Service (identity and owning account). -/
structure Service where
  sid : String
  account_sid : String
deriving DecidableEq, Repr

/-- A serverless Environment (deployment target). -/
structure Environment where
  sid : String
  domain_name : String
deriving DecidableEq, Repr

/-- The Runtime snapshot fetched once per deploy invocation: service plus
optional environment and optional current build. -/
structure Runtime where
  service : Service
  environment : Option Environment
  build : Option Build
deriving DecidableEq, Repr

/-- `Options` of deploy.ts. -/
structure Options where
  isPublic : Bool
  overwrite : Bool
  disallowVersioning : Bool
  isPluginsPilot : Bool
deriving DecidableEq, Repr

/-- `DeployResult` of deploy.ts. -/
structure DeployResult where
  serviceSid : String
  accountSid : String
  environmentSid : String
  domainName : String
  isPublic : Bool
  nextVersion : String
  pluginUrl : String
deriving DecidableEq, Repr

/-- `UIDependencies` (configuration-types): the declared `react` and
`react-dom` ranges; `none` models an absent key. -/
structure UIDependencies where
  react : Option String
  reactDom : Option String
deriving DecidableEq, Repr

/-- The payload submitted to `buildClient.create` in `_doDeploy`. -/
structure BuildData where
  FunctionVersions : List String
  AssetVersions : List String
  Dependencies : List Dependency
deriving DecidableEq, Repr

/-- One remote or local side effect of the orchestrator, in issue order. -/
inductive Action where
  | hasFlagCheck
  | getRuntime
  | getFlexUIVersion
  | getUIDependencies
  | confirmPrompt (defaultAnswer : String)
  | uploadAsset (uri : String) (isPrivate : Bool)
  | registerSid (serviceSid : String)
  | createBuild (data : BuildData)
  | createDeployment (buildSid : String)
  | updateAppVersion (version : String)
deriving DecidableEq, Repr

/-- Typed errors raised by the orchestrator: `FlexPluginError` and
`UserActionError` of flex-dev-utils, each carrying its message. -/
inductive DeployError where
  | flexPluginError (msg : String)
  | userActionError (msg : String)
deriving DecidableEq, Repr

/-- JavaScript falsiness of an optional string (`!x` is true for an absent
key and for the empty string). -/
def jsFalsyOptStr : Option String → Bool
  | none => true
  | some s => s.data.isEmpty

/-- Whether `pat` is an initial segment of the text. -/
def leadsWith : List Char → List Char → Bool
  | [], _ => true
  | _ :: _, [] => false
  | p :: ps, c :: cs => p == c && leadsWith ps cs

/-- Replace the first occurrence of `pat` (the semantics of JavaScript's
`String.replace` with a string pattern, used on the asset base-url
template). -/
def replaceFirstChars (pat repl : List Char) : List Char → List Char
  | [] => if leadsWith pat [] then repl else []
  | c :: cs =>
    if leadsWith pat (c :: cs) then repl ++ List.drop pat.length (c :: cs)
    else c :: replaceFirstChars pat repl cs

/-- JavaScript `s.replace(pat, repl)` on string values. -/
def jsReplaceFirst (s pat repl : String) : String :=
  String.mk (replaceFirstChars pat.data repl.data s.data)

/-! ### Semantic-version model

Modelled from the spec: the Version Resolver and Compatibility Validator
delegate to node-semver (re-exported by flex-dev-utils, outside this
source tree) for "standard semantic-version increment rules", coercion,
and range satisfaction.  The model covers the shapes the orchestrator
uses: plain `X.Y.Z` versions, exact ranges, and `>=X.Y.Z` ranges. -/

/-- A parsed semantic version. -/
structure SemVer where
  major : Nat
  minor : Nat
  patch : Nat
deriving DecidableEq, Repr

/-- Split a character list at every occurrence of `sep` (the character-level
equivalent of splitting a string on a one-character separator). -/
def splitOnChar (sep : Char) : List Char → List (List Char)
  | [] => [[]]
  | c :: cs =>
    match splitOnChar sep cs with
    | [] => if c = sep then [[], []] else [[c]]
    | r :: rs => if c = sep then [] :: r :: rs else (c :: r) :: rs

/-- The numeric value of an ASCII decimal digit. -/
def charToDigit? (c : Char) : Option Nat :=
  if 48 ≤ c.toNat ∧ c.toNat ≤ 57 then some (c.toNat - 48) else none

/-- Accumulate decimal digits into a number; `none` on a non-digit. -/
def digitsToNatAux : List Char → Nat → Option Nat
  | [], acc => some acc
  | c :: cs, acc =>
    match charToDigit? c with
    | some d => digitsToNatAux cs (acc * 10 + d)
    | none => none

/-- Parse a non-empty all-digit character list as a natural number. -/
def parseNat? : List Char → Option Nat
  | [] => none
  | cs => digitsToNatAux cs 0

/-- Modelled from the spec: parse a plain `X.Y.Z` version, given as a
character list. -/
def parseSemVerChars (cs : List Char) : Option SemVer :=
  match (splitOnChar '.' cs).map parseNat? with
  | [some a, some b, some c] => some ⟨a, b, c⟩
  | _ => none

/-- Modelled from the spec: parse a plain `X.Y.Z` version string. -/
def parseSemVer (s : String) : Option SemVer :=
  parseSemVerChars s.data

/-- Semantic-version order (lexicographic on major, minor, patch). -/
def SemVer.ge (a b : SemVer) : Bool :=
  if a.major ≠ b.major then a.major > b.major
  else if a.minor ≠ b.minor then a.minor > b.minor
  else a.patch ≥ b.patch

/-- Modelled from the spec: a parsed version satisfies a range that is
either `>=X.Y.Z` or an exact version; an unparsable range satisfies
nothing (node-semver returns false on an invalid range). -/
def SemVer.satisfiesRange (v : SemVer) (range : String) : Bool :=
  match range.data with
  | '>' :: '=' :: rest =>
    match parseSemVerChars rest with
    | some r => v.ge r
    | none => false
  | other =>
    match parseSemVerChars other with
    | some r => v == r
    | none => false

/-- Modelled from the spec: `semver.satisfies(version, range)` on version
strings; an unparsable version satisfies nothing. -/
def satisfies (v : String) (range : String) : Bool :=
  match parseSemVer v with
  | some sv => sv.satisfiesRange range
  | none => false

/-- Modelled from the spec: `semver.coerce` restricted to plain `X.Y.Z`
strings (the shape the configuration service returns). -/
def coerce (s : String) : Option SemVer :=
  parseSemVer s

/-- Render a semantic version back to `X.Y.Z`. -/
def SemVer.render (v : SemVer) : String :=
  toString v.major ++ "." ++ toString v.minor ++ "." ++ toString v.patch

/-- Modelled from the spec: `semver.inc` — standard increment rules, lower
components reset to zero; `none` on an unparsable current version or an
unknown release type (node-semver returns null there). -/
def semverInc (v : String) (release : String) : Option String :=
  match parseSemVer v with
  | none => none
  | some sv =>
    if release == "major" then some (SemVer.render ⟨sv.major + 1, 0, 0⟩)
    else if release == "minor" then some (SemVer.render ⟨sv.major, sv.minor + 1, 0⟩)
    else if release == "patch" then some (SemVer.render ⟨sv.major, sv.minor, sv.patch + 1⟩)
    else none

/-! ### Path Collision Detector (deploy.ts `_verifyPath`) -/

/-- `_verifyPath(baseUrl, build)` of deploy.ts: true when neither
`{baseUrl}/bundle.js` nor `{baseUrl}/bundle.js.map` is the path of any
existing asset-version or function-version record. -/
def _verifyPath (baseUrl : String) (build : Build) : Bool :=
  let bundlePath := baseUrl ++ "/bundle.js"
  let sourceMapPath := baseUrl ++ "/bundle.js.map"
  let existingAssets := build.asset_versions
  let existingFunctions := build.function_versions
  let checkPathIsUnused := fun (v : Version) => v.path != bundlePath && v.path != sourceMapPath
  existingAssets.all checkPathIsUnused && existingFunctions.all checkPathIsUnused

/-- Characterisation of `_verifyPath`: true iff neither candidate path
occurs among the existing paths. -/
theorem verifyPath_eq_true_iff (baseUrl : String) (build : Build) :
    _verifyPath baseUrl build = true ↔
      (baseUrl ++ "/bundle.js") ∉
          (build.asset_versions ++ build.function_versions).map Version.path ∧
        (baseUrl ++ "/bundle.js.map") ∉
          (build.asset_versions ++ build.function_versions).map Version.path := by
  simp only [_verifyPath, Bool.and_eq_true, List.all_eq_true, bne_iff_ne, ne_eq,
    List.map_append, List.mem_append, List.mem_map]
  constructor
  · rintro ⟨ha, hf⟩
    constructor
    · rintro (⟨v, hv, hp⟩ | ⟨v, hv, hp⟩)
      · exact (ha v hv).1 hp
      · exact (hf v hv).1 hp
    · rintro (⟨v, hv, hp⟩ | ⟨v, hv, hp⟩)
      · exact (ha v hv).2 hp
      · exact (hf v hv).2 hp
  · rintro ⟨hb, hm⟩
    constructor
    · intro v hv
      exact ⟨fun hp => hb (Or.inl ⟨v, hv, hp⟩), fun hp => hm (Or.inl ⟨v, hv, hp⟩)⟩
    · intro v hv
      exact ⟨fun hp => hb (Or.inr ⟨v, hv, hp⟩), fun hp => hm (Or.inr ⟨v, hv, hp⟩)⟩

/-! ### Compatibility Validator (deploy.ts `_verifyFlexUIConfiguration`)

The validator's remote/interactive effects are the `logger` warnings
(presentational, not modelled as actions) and the `confirm` prompt.  The
locally installed `react`/`react-dom` versions (`getPackageVersion`) and
the prompt's resolved answer are inputs of the model. -/

/-- Message raised when the Flex UI version does not support unbundled
React (`singleLineString` joins the trimmed fragments with spaces). -/
def uiIncompatibleMessage (flexUI : String) : String :=
  "We detected that your account is using Flex UI version " ++ flexUI ++
    " which is incompatible with unbundled React. Please visit " ++
    "https://flex.twilio.com/admin/versioning and update to version 1.19 or above."

/-- Message raised when the configured dependency map lacks `react` or
`react-dom`. -/
def uiDependenciesMessage : String :=
  "To use unbundled React, you need to set the React version from the Developer page"

/-- Message of the `UserActionError` raised on a declined confirmation. -/
def userRejectedMessage : String :=
  "User rejected confirmation to deploy with mismatched React version."

/-- `_verifyFlexUIConfiguration(flexUI, dependencies, allowReact)` of
deploy.ts: returns the prompt trace and the typed outcome. -/
def _verifyFlexUIConfiguration (flexUI : String) (dependencies : UIDependencies)
    (allowReact : Bool) (localReact localReactDom : String) (confirmAnswer : Bool) :
    List Action × Except DeployError Unit :=
  if !allowReact then ([], .ok ())
  else if !(satisfies "1.19.0" flexUI ||
      (match coerce flexUI with
        | some c => c.satisfiesRange ">=1.19.0"
        | none => false)) then
    ([], .error (.flexPluginError (uiIncompatibleMessage flexUI)))
  else if jsFalsyOptStr dependencies.react || jsFalsyOptStr dependencies.reactDom then
    ([], .error (.flexPluginError uiDependenciesMessage))
  else if !satisfies localReact (dependencies.react.getD "") ||
      !satisfies localReactDom (dependencies.reactDom.getD "") then
    if confirmAnswer then ([.confirmPrompt "N"], .ok ())
    else ([.confirmPrompt "N"], .error (.userActionError userRejectedMessage))
  else ([], .ok ())

/-! ### Deployment Orchestrator (deploy.ts `_doDeploy` and `deploy`) -/

/-- All collaborator inputs consumed by one `_doDeploy` invocation:
filesystem state, path configuration, the feature flag, the Runtime
snapshot, configuration registry values, local package versions, the
prompt answer, and the sids the remote collaborators mint. -/
structure DeployEnv where
  bundleExists : Bool
  assetBaseUrlTemplate : String
  appName : String
  appVersion : String
  hasFlag : Bool
  runtime : Runtime
  uiVersion : String
  uiDependencies : UIDependencies
  allowReact : Bool
  localReact : String
  localReactDom : String
  confirmAnswer : Bool
  bundleSid : String
  sourceMapSid : String
  newBuildSid : String
deriving Repr

/-- The route-collision test of `_doDeploy`:
`runtime.build ? !_verifyPath(pluginBaseUrl, runtime.build) : false`. -/
def routeCollisionOf (optBuild : Option Build) (pluginBaseUrl : String) : Bool :=
  match optBuild with
  | some b => !_verifyPath pluginBaseUrl b
  | none => false

/-- Build composition of `_doDeploy`: carry function-version sids and
dependencies forward, carry asset-version sids forward minus the replaced
paths when overwriting a collision, and push the two new sids. -/
def composeBuildData (optBuild : Option Build) (routeCollision overwrite : Bool)
    (bundleUri sourceMapUri bundleSid sourceMapSid : String) : BuildData :=
  let buildAssets := match optBuild with | some b => b.asset_versions | none => []
  let buildFunctions := match optBuild with | some b => b.function_versions | none => []
  let buildDependencies := match optBuild with | some b => b.dependencies | none => []
  let existingAssets :=
    if routeCollision && overwrite then
      buildAssets.filter fun v => v.path != bundleUri && v.path != sourceMapUri
    else buildAssets
  { FunctionVersions := buildFunctions.map Version.sid
    AssetVersions := existingAssets.map Version.sid ++ [bundleSid, sourceMapSid]
    Dependencies := buildDependencies }

/-- Message raised when the local bundle artifact is missing. -/
def missingBundleMessage : String :=
  "Could not find build file. Did you run `twilio flex:plugins:build` first?"

/-- Message raised when the plugins-pilot feature flag is absent. -/
def pilotRestrictedMessage : String :=
  "This command is currently in Preview and is restricted to users while we work " ++
    "on improving it. If you would like to participate, please contact " ++
    "flex@twilio.com to learn more."

/-- Message raised when the Runtime has no environment. -/
def noEnvironmentMessage : String := "No Runtime environment was found"

/-- `_doDeploy(nextVersion, options)` of deploy.ts as a pure function from
the collaborator inputs to the ordered action trace and the typed outcome.
The terminal `deploySuccessful` print and the account lookup feeding it
are presentational and are not modelled. -/
def _doDeploy (nextVersion : String) (options : Options) (env : DeployEnv) :
    List Action × Except DeployError DeployResult :=
  if !env.bundleExists then
    ([], .error (.flexPluginError missingBundleMessage))
  else
    let pluginBaseUrl := jsReplaceFirst env.assetBaseUrlTemplate "%PLUGIN_VERSION%" nextVersion
    let bundleUri := pluginBaseUrl ++ "/bundle.js"
    let sourceMapUri := pluginBaseUrl ++ "/bundle.js.map"
    let pilotTrace := if options.isPluginsPilot then [Action.hasFlagCheck] else []
    if options.isPluginsPilot && !env.hasFlag then
      (pilotTrace, .error (.flexPluginError pilotRestrictedMessage))
    else
      match env.runtime.environment with
      | none =>
        (pilotTrace ++ [Action.getRuntime], .error (.flexPluginError noEnvironmentMessage))
      | some environment =>
        let pluginUrl := "https://" ++ environment.domain_name ++ bundleUri
        let vres := _verifyFlexUIConfiguration env.uiVersion env.uiDependencies
          env.allowReact env.localReact env.localReactDom env.confirmAnswer
        let trace3 := pilotTrace ++ [Action.getRuntime, Action.getFlexUIVersion,
          Action.getUIDependencies] ++ vres.1
        match vres.2 with
        | .error e => (trace3, .error e)
        | .ok _ =>
          let routeCollision := routeCollisionOf env.runtime.build pluginBaseUrl
          if routeCollision && !options.overwrite then
            (trace3, .error (.flexPluginError
              ("You already have a plugin with the same version: " ++ pluginUrl)))
          else
            let buildData := composeBuildData env.runtime.build routeCollision
              options.overwrite bundleUri sourceMapUri env.bundleSid env.sourceMapSid
            (trace3 ++
              [Action.uploadAsset bundleUri (!options.isPublic),
                Action.uploadAsset sourceMapUri (!options.isPublic),
                Action.registerSid env.runtime.service.sid,
                Action.createBuild buildData,
                Action.createDeployment env.newBuildSid,
                Action.updateAppVersion nextVersion],
              .ok
                { serviceSid := env.runtime.service.sid
                  accountSid := env.runtime.service.account_sid
                  environmentSid := environment.sid
                  domainName := environment.domain_name
                  isPublic := options.isPublic
                  nextVersion := nextVersion
                  pluginUrl := pluginUrl })

/-- `allowedBumps` of deploy.ts, verbatim: note that `overwrite` is absent
from the list even though `deploy` has a branch for it. -/
def allowedBumps : List String := ["major", "minor", "patch", "version"]

/-- Version resolution of the `deploy` entry point (deploy.ts lines
267–294): computes the next version and the `Options` record, or raises
the bump-validation errors, exactly as the source does before it calls
`_doDeploy`.  `argv.get? 0` is the bump directive, `argv.get? 1` the
explicit version.  An out-of-range `semver.inc` result is the JS `null`
interpolated as the string "null". -/
def resolveVersion (argv : List String) (appVersion : String) :
    Except DeployError (String × Options) :=
  let disallowVersioning := argv.contains "--disallow-versioning"
  let opts : Options :=
    { isPublic := argv.contains "--public"
      overwrite := argv.contains "--overwrite" || disallowVersioning
      disallowVersioning := disallowVersioning
      isPluginsPilot := argv.contains "--pilot-plugins-api" }
  if disallowVersioning then .ok ("0.0.0", opts)
  else if !(match argv.get? 0 with
      | some b => allowedBumps.contains b
      | none => false) then
    .error (.flexPluginError
      ("Version bump can only be one of " ++ String.intercalate ", " allowedBumps))
  else if argv.get? 0 == some "version" && jsFalsyOptStr (argv.get? 1) then
    .error (.flexPluginError "Custom version bump requires the version value.")
  else if argv.get? 0 == some "overwrite" then
    .ok (appVersion, { opts with overwrite := true })
  else if argv.get? 0 != some "version" then
    .ok ((semverInc appVersion ((argv.get? 0).getD "")).getD "null", opts)
  else
    .ok ((argv.get? 1).getD "", opts)

/-- The `deploy` entry point: resolve the version and options from the
argument vector, then run `_doDeploy`.  A resolution error aborts before
any remote effect. -/
def deploy (argv : List String) (env : DeployEnv) :
    List Action × Except DeployError DeployResult :=
  match resolveVersion argv env.appVersion with
  | .error e => ([], .error e)
  | .ok (nextVersion, opts) => _doDeploy nextVersion opts env

/-! ### DeploymentClient (`clients/deployments.ts`)

The constructor validates the service and environment sids; `create`
validates the build sid before issuing the HTTP POST.  The sid-format
test `isSidOfType` lives in flex-dev-utils (outside this source tree), so
the model abstracts it as a predicate parameter: every theorem below
holds for the real implementation by instantiation. -/

/-- A deployment resource returned by the serverless API. -/
structure Deployment where
  sid : String
deriving DecidableEq, Repr

/-- An HTTP POST request issued by a serverless client. -/
structure HttpPost where
  uri : String
  buildSid : String
deriving DecidableEq, Repr

/-- The client state once the constructor has validated its sids. -/
structure DeploymentClient where
  serviceSid : String
  environmentSid : String
  baseUrl : String
deriving DecidableEq, Repr

/-- `DeploymentClient.BaseUri`. -/
def DeploymentClient.BaseUri : String := "Deployments"

/-- The `DeploymentClient` constructor: the base-url computation of the
`super` call followed by the two sid validations, in source order. -/
def DeploymentClient.construct (isSidOfType : String → String → Bool)
    (serverlessBaseUrl serviceSid environmentSid : String) :
    Except String DeploymentClient :=
  if !isSidOfType serviceSid "ZS" then
    .error ("ServiceSid " ++ serviceSid ++ " is not valid")
  else if !isSidOfType environmentSid "ZE" then
    .error ("EnvironmentSid " ++ environmentSid ++ " is not valid")
  else
    .ok { serviceSid := serviceSid
          environmentSid := environmentSid
          baseUrl := serverlessBaseUrl ++ "/Services/" ++ serviceSid ++
            "/Environments/" ++ environmentSid }

/-- `DeploymentClient.create(buildSid)`: validate the build sid, then POST
to `Deployments`; the response of a performed POST is the collaborator's
(`response` parameter).  The trace lists the HTTP requests issued. -/
def DeploymentClient.createDeployment (isSidOfType : String → String → Bool)
    (response : Deployment) (buildSid : String) :
    List HttpPost × Except String Deployment :=
  if !isSidOfType buildSid "ZB" then
    ([], .error (buildSid ++ " is not of type ZB"))
  else
    ([{ uri := DeploymentClient.BaseUri, buildSid := buildSid }], .ok response)

/-! ### Helper lemmas shared by the claim theorems -/

/-- The validator's trace is either empty or the single confirmation
prompt with default "N". -/
theorem verifyFlexUI_trace_cases (flexUI : String) (deps : UIDependencies)
    (allowReact : Bool) (localReact localReactDom : String) (confirmAnswer : Bool) :
    (_verifyFlexUIConfiguration flexUI deps allowReact localReact localReactDom
        confirmAnswer).1 = [] ∨
      (_verifyFlexUIConfiguration flexUI deps allowReact localReact localReactDom
        confirmAnswer).1 = [Action.confirmPrompt "N"] := by
  unfold _verifyFlexUIConfiguration
  repeat' split
  all_goals simp

/-- A build containing the candidate bundle path fails `_verifyPath`. -/
theorem verifyPath_false_of_bundle_mem (baseUrl : String) (build : Build)
    (h : (baseUrl ++ "/bundle.js") ∈
      (build.asset_versions ++ build.function_versions).map Version.path) :
    _verifyPath baseUrl build = false := by
  cases hv : _verifyPath baseUrl build with
  | false => rfl
  | true => exact absurd h ((verifyPath_eq_true_iff baseUrl build).1 hv).1

/-! ### The claims -/

/-- C1: the spec (and the dead `bump === 'overwrite'` branch of `deploy`
itself) says the bump directive "overwrite" is accepted, resolves to the
current version and forces `overwrite=true`; but `allowedBumps` omits
"overwrite", so the entry point rejects it with the bump-validation
error.  This theorem evaluates the entry point's version resolution at
the failing input. -/
theorem c1_overwrite_bump_is_rejected_by_the_code :
    resolveVersion ["overwrite"] "1.2.3" =
      .error (.flexPluginError
        "Version bump can only be one of major, minor, patch, version") := by
  rfl

/-- C2: `_verifyPath baseUrl build` is true iff neither
`baseUrl ++ "/bundle.js"` nor `baseUrl ++ "/bundle.js.map"` occurs as a
path among the build's asset-version and function-version records; as a
total Lean function of its two arguments it is pure and leaves `build`
untouched. -/
theorem c2_verifyPath_true_iff_no_candidate_path_used (baseUrl : String) (build : Build) :
    _verifyPath baseUrl build = true ↔
      (baseUrl ++ "/bundle.js") ∉
          (build.asset_versions ++ build.function_versions).map Version.path ∧
        (baseUrl ++ "/bundle.js.map") ∉
          (build.asset_versions ++ build.function_versions).map Version.path :=
  verifyPath_eq_true_iff baseUrl build

/-- C5: any argument vector containing `--disallow-versioning` resolves
to the literal version "0.0.0" with `overwrite` forced true (and
`disallowVersioning` set), and no bump-directive validation error is
raised, whatever else the vector holds. -/
theorem c5_disallow_versioning_forces_zero_version (argv : List String)
    (appVersion : String) (h : argv.contains "--disallow-versioning" = true) :
    resolveVersion argv appVersion =
      .ok ("0.0.0",
        { isPublic := argv.contains "--public"
          overwrite := true
          disallowVersioning := true
          isPluginsPilot := argv.contains "--pilot-plugins-api" }) := by
  have h' : "--disallow-versioning" ∈ argv := by simpa using h
  simp [resolveVersion, h']

/-- C5 witness: the concrete vector `["--disallow-versioning"]`. -/
theorem c5_disallow_versioning_forces_zero_version_witness :
    resolveVersion ["--disallow-versioning"] "1.2.3" =
      .ok ("0.0.0",
        { isPublic := false
          overwrite := true
          disallowVersioning := true
          isPluginsPilot := false }) :=
  c5_disallow_versioning_forces_zero_version ["--disallow-versioning"] "1.2.3" (by rfl)

/-- C6: with `allowReact` false the validator returns without error and
issues no confirmation prompt, whatever the host UI version, dependency
map, local versions or prompt answer. -/
theorem c6_validator_is_noop_without_override (flexUI : String) (deps : UIDependencies)
    (localReact localReactDom : String) (confirmAnswer : Bool) :
    _verifyFlexUIConfiguration flexUI deps false localReact localReactDom confirmAnswer =
      ([], .ok ()) :=
  rfl

/-- C7: when the host UI version is not supporting — `"1.19.0"` does not
satisfy it as a range and its coercion does not satisfy `>=1.19.0` — the
validator with override allowed fails with the `FlexPluginError` naming
the detected version, and its trace holds no prompt. -/
theorem c7_unsupported_ui_fails_without_prompt (flexUI : String) (deps : UIDependencies)
    (localReact localReactDom : String) (confirmAnswer : Bool)
    (h : (satisfies "1.19.0" flexUI ||
        (match coerce flexUI with
          | some c => c.satisfiesRange ">=1.19.0"
          | none => false)) = false) :
    _verifyFlexUIConfiguration flexUI deps true localReact localReactDom confirmAnswer =
      ([], .error (.flexPluginError (uiIncompatibleMessage flexUI))) := by
  simp [_verifyFlexUIConfiguration, h]

/-- C7 witness: host UI version "1.18.0" fails this way. -/
theorem c7_unsupported_ui_fails_without_prompt_witness :
    _verifyFlexUIConfiguration "1.18.0" ⟨some "16.0.0", some "16.0.0"⟩ true
        "16.0.0" "16.0.0" false =
      ([], .error (.flexPluginError (uiIncompatibleMessage "1.18.0"))) :=
  c7_unsupported_ui_fails_without_prompt "1.18.0" ⟨some "16.0.0", some "16.0.0"⟩
    "16.0.0" "16.0.0" false (by rfl)

/-- C8: with a supporting host UI version, declared non-empty `react` and
`react-dom` ranges, and a local react or react-dom version outside its
declared range, the validator issues the confirmation prompt with default
"N"; a negative (or defaulted) answer yields the `UserActionError`, a
positive answer returns success. -/
theorem c8_react_mismatch_prompts_and_gates (flexUI reactRange reactDomRange : String)
    (localReact localReactDom : String) (confirmAnswer : Bool)
    (hui : (satisfies "1.19.0" flexUI ||
        (match coerce flexUI with
          | some c => c.satisfiesRange ">=1.19.0"
          | none => false)) = true)
    (hr : reactRange.data.isEmpty = false) (hrd : reactDomRange.data.isEmpty = false)
    (hmismatch : (satisfies localReact reactRange &&
      satisfies localReactDom reactDomRange) = false) :
    _verifyFlexUIConfiguration flexUI ⟨some reactRange, some reactDomRange⟩ true
        localReact localReactDom confirmAnswer =
      ([Action.confirmPrompt "N"],
        if confirmAnswer then .ok () else .error (.userActionError userRejectedMessage)) := by
  have hm : (!satisfies localReact reactRange ||
      !satisfies localReactDom reactDomRange) = true := by
    rw [← Bool.not_and, hmismatch]
    rfl
  cases confirmAnswer <;>
    simp [_verifyFlexUIConfiguration, hui, hm, jsFalsyOptStr, hr, hrd]

/-- C8 witness: host "1.20.0", declared react/react-dom "16.0.0", local
versions "17.0.2", answer "no". -/
theorem c8_react_mismatch_prompts_and_gates_witness :
    _verifyFlexUIConfiguration "1.20.0" ⟨some "16.0.0", some "16.0.0"⟩ true
        "17.0.2" "17.0.2" false =
      ([Action.confirmPrompt "N"], .error (.userActionError userRejectedMessage)) :=
  c8_react_mismatch_prompts_and_gates "1.20.0" "16.0.0" "16.0.0" "17.0.2" "17.0.2" false
    (by rfl) (by rfl) (by rfl) (by rfl)

/-- C3: the composed build data carries existing function-version sids and
the dependency list verbatim and in order; asset-version sids are carried
forward, minus the records whose path equals the new bundle or source-map
URI when a collision was detected under `overwrite`; the two new sids are
appended last; with no existing build the asset list is exactly the two
new sids. -/
theorem c3_build_composition_carries_and_appends (optBuild : Option Build)
    (overwrite : Bool) (pluginBaseUrl bundleSid sourceMapSid : String) :
    (composeBuildData optBuild (routeCollisionOf optBuild pluginBaseUrl) overwrite
        (pluginBaseUrl ++ "/bundle.js") (pluginBaseUrl ++ "/bundle.js.map")
        bundleSid sourceMapSid).FunctionVersions =
      (optBuild.elim [] Build.function_versions).map Version.sid ∧
    (composeBuildData optBuild (routeCollisionOf optBuild pluginBaseUrl) overwrite
        (pluginBaseUrl ++ "/bundle.js") (pluginBaseUrl ++ "/bundle.js.map")
        bundleSid sourceMapSid).Dependencies =
      optBuild.elim [] Build.dependencies ∧
    ((routeCollisionOf optBuild pluginBaseUrl && overwrite) = true →
      (composeBuildData optBuild (routeCollisionOf optBuild pluginBaseUrl) overwrite
          (pluginBaseUrl ++ "/bundle.js") (pluginBaseUrl ++ "/bundle.js.map")
          bundleSid sourceMapSid).AssetVersions =
        ((optBuild.elim [] Build.asset_versions).filter fun v =>
            decide (v.path ≠ pluginBaseUrl ++ "/bundle.js" ∧
              v.path ≠ pluginBaseUrl ++ "/bundle.js.map")).map Version.sid ++
          [bundleSid, sourceMapSid]) ∧
    ((routeCollisionOf optBuild pluginBaseUrl && overwrite) = false →
      (composeBuildData optBuild (routeCollisionOf optBuild pluginBaseUrl) overwrite
          (pluginBaseUrl ++ "/bundle.js") (pluginBaseUrl ++ "/bundle.js.map")
          bundleSid sourceMapSid).AssetVersions =
        (optBuild.elim [] Build.asset_versions).map Version.sid ++
          [bundleSid, sourceMapSid]) ∧
    (optBuild = none →
      (composeBuildData optBuild (routeCollisionOf optBuild pluginBaseUrl) overwrite
          (pluginBaseUrl ++ "/bundle.js") (pluginBaseUrl ++ "/bundle.js.map")
          bundleSid sourceMapSid).AssetVersions = [bundleSid, sourceMapSid]) := by
  have hfun : (fun v : Version => v.path != pluginBaseUrl ++ "/bundle.js" &&
      v.path != pluginBaseUrl ++ "/bundle.js.map") =
      (fun v : Version => decide (v.path ≠ pluginBaseUrl ++ "/bundle.js" ∧
        v.path ≠ pluginBaseUrl ++ "/bundle.js.map")) := by
    funext v
    by_cases h1 : v.path = pluginBaseUrl ++ "/bundle.js" <;>
      by_cases h2 : v.path = pluginBaseUrl ++ "/bundle.js.map" <;> simp [h1, h2]
  refine ⟨?_, ?_, ?_, ?_, ?_⟩
  · cases optBuild <;> rfl
  · cases optBuild <;> rfl
  · intro hco
    cases optBuild with
    | none => simp [routeCollisionOf] at hco
    | some b => simp [composeBuildData, hco, hfun]
  · intro hco
    cases optBuild with
    | none => rfl
    | some b => simp [composeBuildData, hco]
  · intro hnone
    subst hnone
    rfl

/-- C4: when the existing build already holds the target bundle path, the
compatibility validation succeeds and `overwrite` is false, `_doDeploy`
aborts with the conflict error naming the colliding plugin URL, and no
asset upload appears in the action trace. -/
theorem c4_collision_without_overwrite_aborts_before_upload (nextVersion : String)
    (options : Options) (env : DeployEnv) (e : Environment) (b : Build)
    (hfile : env.bundleExists = true)
    (hpilot : options.isPluginsPilot = true → env.hasFlag = true)
    (henv : env.runtime.environment = some e)
    (hbuild : env.runtime.build = some b)
    (hcoll : (jsReplaceFirst env.assetBaseUrlTemplate "%PLUGIN_VERSION%" nextVersion ++
        "/bundle.js") ∈ (b.asset_versions ++ b.function_versions).map Version.path)
    (hover : options.overwrite = false)
    (hvalid : (_verifyFlexUIConfiguration env.uiVersion env.uiDependencies env.allowReact
        env.localReact env.localReactDom env.confirmAnswer).2 = .ok ()) :
    (_doDeploy nextVersion options env).2 =
      .error (.flexPluginError
        ("You already have a plugin with the same version: " ++
          ("https://" ++ e.domain_name ++
            (jsReplaceFirst env.assetBaseUrlTemplate "%PLUGIN_VERSION%" nextVersion ++
              "/bundle.js")))) ∧
    ∀ uri priv, Action.uploadAsset uri priv ∉ (_doDeploy nextVersion options env).1 := by
  have hvp := verifyPath_false_of_bundle_mem
    (jsReplaceFirst env.assetBaseUrlTemplate "%PLUGIN_VERSION%" nextVersion) b hcoll
  have hrc : routeCollisionOf env.runtime.build
      (jsReplaceFirst env.assetBaseUrlTemplate "%PLUGIN_VERSION%" nextVersion) = true := by
    rw [hbuild]
    simp [routeCollisionOf, hvp]
  have hpp : (options.isPluginsPilot && !env.hasFlag) = false := by
    cases hp : options.isPluginsPilot
    · rfl
    · rw [hpilot hp]
      rfl
  have htr : (_doDeploy nextVersion options env).1 =
      (if options.isPluginsPilot then [Action.hasFlagCheck] else []) ++
        [Action.getRuntime, Action.getFlexUIVersion, Action.getUIDependencies] ++
        (_verifyFlexUIConfiguration env.uiVersion env.uiDependencies env.allowReact
          env.localReact env.localReactDom env.confirmAnswer).1 := by
    cases hp : options.isPluginsPilot
    · simp [_doDeploy, hfile, hpp, henv, hrc, hover, hvalid, hp]
    · have hflag := hpilot hp
      simp [_doDeploy, hfile, henv, hrc, hover, hvalid, hp, hflag]
  constructor
  · simp [_doDeploy, hfile, hpp, henv, hrc, hover, hvalid]
  · intro uri priv
    rw [htr]
    rcases verifyFlexUI_trace_cases env.uiVersion env.uiDependencies env.allowReact
        env.localReact env.localReactDom env.confirmAnswer with ht | ht <;>
      cases hp : options.isPluginsPilot <;> simp [ht, hp]

/-- Concrete collaborator inputs for the C4 witness: the existing build
already holds the target bundle path and overwriting is off. -/
def envC4 : DeployEnv :=
  { bundleExists := true
    assetBaseUrlTemplate := "/plugins/demo/%PLUGIN_VERSION%"
    appName := "demo"
    appVersion := "1.0.0"
    hasFlag := false
    runtime :=
      { service := { sid := "ZS0", account_sid := "AC0" }
        environment := some { sid := "ZE0", domain_name := "demo.twil.io" }
        build := some
          { asset_versions := [{ path := "/plugins/demo/1.0.0/bundle.js", sid := "ZV1" }]
            function_versions := []
            dependencies := [] } }
    uiVersion := "1.20.0"
    uiDependencies := { react := some "16.0.0", reactDom := some "16.0.0" }
    allowReact := false
    localReact := "16.0.0"
    localReactDom := "16.0.0"
    confirmAnswer := false
    bundleSid := "ZVB"
    sourceMapSid := "ZVM"
    newBuildSid := "ZB0" }

/-- The options of the C4 witness: every flag off. -/
def optionsC4 : Options :=
  { isPublic := false, overwrite := false, disallowVersioning := false,
    isPluginsPilot := false }

/-- C4 witness: the concrete colliding run aborts with the conflict error
naming the colliding URL. -/
theorem c4_collision_without_overwrite_aborts_before_upload_witness :
    (_doDeploy "1.0.0" optionsC4 envC4).2 =
      .error (.flexPluginError
        ("You already have a plugin with the same version: " ++
          ("https://" ++ "demo.twil.io" ++
            (jsReplaceFirst "/plugins/demo/%PLUGIN_VERSION%" "%PLUGIN_VERSION%" "1.0.0" ++
              "/bundle.js")))) :=
  (c4_collision_without_overwrite_aborts_before_upload "1.0.0" optionsC4 envC4
    { sid := "ZE0", domain_name := "demo.twil.io" }
    { asset_versions := [{ path := "/plugins/demo/1.0.0/bundle.js", sid := "ZV1" }]
      function_versions := [], dependencies := [] }
    rfl (by simp [optionsC4]) rfl rfl (by decide) rfl rfl).1

/-- C9: a fetched Runtime with no environment makes `_doDeploy` abort with
the precondition error right after runtime discovery: no validation,
collision check, upload, build creation or deployment creation appears in
the trace, which holds at most the feature-flag check and the runtime
fetch. -/
theorem c9_missing_environment_aborts_after_discovery (nextVersion : String)
    (options : Options) (env : DeployEnv)
    (hfile : env.bundleExists = true)
    (hpilot : options.isPluginsPilot = true → env.hasFlag = true)
    (henv : env.runtime.environment = none) :
    (_doDeploy nextVersion options env).2 =
      .error (.flexPluginError noEnvironmentMessage) ∧
    ∀ a ∈ (_doDeploy nextVersion options env).1,
      a = Action.hasFlagCheck ∨ a = Action.getRuntime := by
  have hpp : (options.isPluginsPilot && !env.hasFlag) = false := by
    cases hp : options.isPluginsPilot
    · rfl
    · rw [hpilot hp]
      rfl
  constructor
  · simp [_doDeploy, hfile, hpp, henv]
  · intro a ha
    cases hp : options.isPluginsPilot
    · simp [_doDeploy, hfile, hpp, henv, hp] at ha
      exact Or.inr ha
    · have hflag := hpilot hp
      simp [_doDeploy, hfile, henv, hp, hflag] at ha
      tauto

/-- Concrete collaborator inputs for the C9 witness: a Runtime with no
environment. -/
def envC9 : DeployEnv :=
  { envC4 with
    runtime :=
      { service := { sid := "ZS0", account_sid := "AC0" }
        environment := none
        build := none } }

/-- C9 witness: the concrete run with no environment aborts with the
precondition error. -/
theorem c9_missing_environment_aborts_after_discovery_witness :
    (_doDeploy "1.0.0" optionsC4 envC9).2 =
      .error (.flexPluginError noEnvironmentMessage) :=
  (c9_missing_environment_aborts_after_discovery "1.0.0" optionsC4 envC9
    rfl (by simp [optionsC4]) rfl).1

/-- C10: the DeploymentClient validates sid formats before any network
effect — the constructor errors whenever the service sid is not ZS-typed
or the environment sid is not ZE-typed, and `create` errors without
issuing any HTTP request whenever the build sid is not ZB-typed; the POST
is issued exactly for well-formed build sids.  The sid-format predicate is
abstract, so this holds for the real `isSidOfType`. -/
theorem c10_deployment_client_validates_before_posting
    (isSidOfType : String → String → Bool)
    (serverlessBaseUrl serviceSid environmentSid buildSid : String)
    (response : Deployment) :
    (isSidOfType serviceSid "ZS" = false →
      DeploymentClient.construct isSidOfType serverlessBaseUrl serviceSid environmentSid =
        .error ("ServiceSid " ++ serviceSid ++ " is not valid")) ∧
    (isSidOfType environmentSid "ZE" = false →
      ∃ msg, DeploymentClient.construct isSidOfType serverlessBaseUrl serviceSid
        environmentSid = .error msg) ∧
    (isSidOfType buildSid "ZB" = false →
      DeploymentClient.createDeployment isSidOfType response buildSid =
        ([], .error (buildSid ++ " is not of type ZB"))) ∧
    (isSidOfType buildSid "ZB" = true →
      DeploymentClient.createDeployment isSidOfType response buildSid =
        ([{ uri := DeploymentClient.BaseUri, buildSid := buildSid }], .ok response)) := by
  refine ⟨fun hs => ?_, fun he => ?_, fun hb => ?_, fun hb => ?_⟩
  · simp [DeploymentClient.construct, hs]
  · cases hs : isSidOfType serviceSid "ZS"
    · exact ⟨"ServiceSid " ++ serviceSid ++ " is not valid",
        by simp [DeploymentClient.construct, hs]⟩
    · exact ⟨"EnvironmentSid " ++ environmentSid ++ " is not valid",
        by simp [DeploymentClient.construct, hs, he]⟩
  · simp [DeploymentClient.createDeployment, hb]
  · simp [DeploymentClient.createDeployment, hb]

end FlexPlugin
